import Mathlib

/-!
Verification development for the social-media-app backend
(Express + Mongoose tutorial scaffold).

Shallow embedding of the backend source:
- models/User.js, models/Post.js, models/Message.js  (document schemas)
- middleware/authMiddleware.js                        (auth gate)
- controllers/authController.js                       (registerUser, loginUser)
- controllers/postController.js                       (createPost, getPosts, getPost, deletePost)
- controllers/messageController.js                    (sendMessage, getMessages, getMessage)
- routes/postRoutes.js, routes/messageRoutes.js, app.js (routing)

Modelling conventions:
- MongoDB ObjectId values are Nat; document ids in a collection are unique,
  so removal by id is modelled as filtering out that id.
- Timestamps (createdAt) are Nat.
- bcrypt hashing is modelled as an injective tagging function on strings;
  bcrypt.compare(pw, stored) recomputes and compares.
- A JWT is modelled as its decoded content plus two flags: whether its
  signature verifies under the server secret and whether it is expired.
  jwt.verify returns the embedded subject id exactly when the signature
  verifies and the token is not expired, and throws (None here) otherwise.
- A Mongoose document is also rendered as an association list of
  (field name, value) pairs so that field projections such as
  select(-password) can be stated faithfully.
-/

/-- A value stored in a document field. -/
inductive Value where
  | str (s : String)
  | nat (n : Nat)
  | ids (l : List Nat)
  | flag (b : Bool)
  | null
deriving DecidableEq, Repr

/-- models/User.js: username/email unique, password stored hashed,
followers/following hold User ids, timestamps enabled. -/
structure UserRecord where
  id : Nat
  username : String
  email : String
  password : String
  bio : Option String
  profilePicture : Option String
  followers : List Nat
  following : List Nat
  createdAt : Nat
deriving DecidableEq, Repr

/-- An embedded comment of models/Post.js. -/
structure CommentRecord where
  user : Nat
  text : String
  createdAt : Nat
deriving DecidableEq, Repr

/-- models/Post.js: user references the owning User id. -/
structure PostRecord where
  id : Nat
  user : Nat
  content : String
  image : Option String
  likes : List Nat
  comments : List CommentRecord
  createdAt : Nat
deriving DecidableEq, Repr

/-- models/Message.js: sender and recipient reference User ids. -/
structure MessageRecord where
  id : Nat
  sender : Nat
  recipient : Nat
  content : String
  read : Bool
  createdAt : Nat
deriving DecidableEq, Repr

/-- A JWT: decoded payload id plus signature/expiry status. -/
structure Token where
  subjectId : Nat
  sigValid : Bool
  expired : Bool
deriving DecidableEq, Repr

/-- utils/jwt.js: generateToken signs with the server secret for 30 days,
so a freshly issued token has a valid signature and is not expired. -/
def generateToken (i : Nat) : Token :=
  { subjectId := i, sigValid := true, expired := false }

/-- jwt.verify(token, JWT_SECRET): returns the decoded id when the
signature matches and the token has not expired, otherwise throws. -/
def jwtVerify (t : Token) : Option Nat :=
  if t.sigValid && !t.expired then some t.subjectId else none

/-- bcrypt.hash with a fresh salt, modelled as injective tagging. -/
def bcryptHash (pw : String) : String :=
  "bcrypt$" ++ pw

/-- userSchema.methods.matchPassword: bcrypt.compare of the supplied
plaintext against the stored hash. -/
def matchPassword (u : UserRecord) (pw : String) : Bool :=
  bcryptHash pw == u.password

/-- User.findById on the users collection. -/
def findById (db : List UserRecord) (i : Nat) : Option UserRecord :=
  db.find? (fun u => u.id == i)

/-- User.findOne with an email filter. -/
def findByEmail (db : List UserRecord) (email : String) : Option UserRecord :=
  db.find? (fun u => u.email == email)

/-- The Mongo document of a user record, as an association list. -/
def userDoc : UserRecord → List (String × Value)
  | ⟨i, un, em, pw, b, pp, fo, fg, c⟩ =>
    [("_id", Value.nat i),
     ("username", Value.str un),
     ("email", Value.str em),
     ("password", Value.str pw),
     ("bio", match b with | some s => Value.str s | none => Value.null),
     ("profilePicture", match pp with | some s => Value.str s | none => Value.null),
     ("followers", Value.ids fo),
     ("following", Value.ids fg),
     ("createdAt", Value.nat c)]

/-- select(-password): project away the password field of a document. -/
def selectMinusPassword (doc : List (String × Value)) : List (String × Value) :=
  doc.filter (fun kv => kv.1 != "password")

/-- Reading a field of a document. -/
def getField (doc : List (String × Value)) (k : String) : Option Value :=
  (doc.find? (fun kv => kv.1 == k)).map (fun kv => kv.2)

/-- The Authorization header of a request: absent, present but not of the
form Bearer token, or a bearer token. -/
inductive AuthHeader where
  | missing
  | malformed (raw : String)
  | bearer (t : Token)
deriving DecidableEq, Repr

/-- Outcome of middleware/authMiddleware.js on a request: either a 401
response is sent without calling next(), or next() is called with req.user
set to the found document (null when no user has the decoded id). -/
inductive AuthOutcome where
  | reject (status : Nat) (message : String)
  | proceed (user : Option (List (String × Value)))
deriving DecidableEq, Repr

/-- middleware/authMiddleware.js: on a Bearer header, jwt.verify the token;
on success set req.user to User.findById(decoded.id).select(-password) and
call next() - note no null check on the found user - and on a verify
failure respond 401 token failed; with no Bearer header respond 401 no
token. -/
def authMiddleware (db : List UserRecord) (h : AuthHeader) : AuthOutcome :=
  match h with
  | AuthHeader.bearer t =>
    match jwtVerify t with
    | some i => AuthOutcome.proceed ((findById db i).map (fun u => selectMinusPassword (userDoc u)))
    | none => AuthOutcome.reject 401 "Not authorized, token failed"
  | _ => AuthOutcome.reject 401 "Not authorized, no token"

/-- Outcome of controllers/authController.js registerUser:
400 User already exists, 201 with the created profile and a fresh token,
or a duplicate-key exception escaping from the store unique indexes. -/
inductive RegisterResult where
  | duplicate
  | created (u : UserRecord) (t : Token)
  | storeError
deriving DecidableEq, Repr

/-- Full effect of a registration call: the response, the users collection
afterwards, and how many bcrypt hash computations were performed. -/
structure RegisterOutcome where
  result : RegisterResult
  db : List UserRecord
  hashOps : Nat
deriving DecidableEq, Repr

/-- controllers/authController.js registerUser: User.findOne on the email;
if found respond 400, otherwise User.create runs the pre-save hook (one
bcrypt hash) and then the store insert, which the unique indexes of
username and email reject with a duplicate-key error that the controller
does not catch. -/
def registerUser (db : List UserRecord) (newId : Nat) (username email password : String)
    (time : Nat) : RegisterOutcome :=
  match findByEmail db email with
  | some _ => { result := RegisterResult.duplicate, db := db, hashOps := 0 }
  | none =>
    let hashed := bcryptHash password
    if db.any (fun u => u.username == username || u.email == email) then
      { result := RegisterResult.storeError, db := db, hashOps := 1 }
    else
      let u : UserRecord :=
        { id := newId, username := username, email := email, password := hashed,
          bio := none, profilePicture := none, followers := [], following := [],
          createdAt := time }
      { result := RegisterResult.created u (generateToken newId), db := db ++ [u],
        hashOps := 1 }

/-- Response of controllers/authController.js loginUser. -/
inductive LoginResult where
  | ok (id : Nat) (username email : String) (t : Token)
  | err (status : Nat) (message : String)
deriving DecidableEq, Repr

/-- controllers/authController.js loginUser: User.findOne on the email,
then matchPassword; a single else branch answers 401 Invalid email or
password for both an unknown email and a wrong password. -/
def loginUser (db : List UserRecord) (email password : String) : LoginResult :=
  match findByEmail db email with
  | some u =>
    if matchPassword u password then
      LoginResult.ok u.id u.username u.email (generateToken u.id)
    else
      LoginResult.err 401 "Invalid email or password"
  | none => LoginResult.err 401 "Invalid email or password"

/-- The JSON body of POST /api/posts. The user field models a
client-supplied owner value: createPost destructures only content and
image from the body, so it is ignored. -/
structure PostBody where
  content : String
  image : Option String
  user : Option Nat
deriving DecidableEq, Repr

/-- The JSON body of POST /api/messages. The sender field models a
client-supplied sender value: sendMessage destructures only recipient and
content, so it is ignored. -/
structure MessageBody where
  recipient : Nat
  content : String
  sender : Option Nat
deriving DecidableEq, Repr

/-- controllers/postController.js createPost: builds the post with
user := req.user._id and the destructured content and image, saves it and
answers 201 with the created document. -/
def createPost (uid : Nat) (body : PostBody) (newId time : Nat) : Nat × PostRecord :=
  (201,
   { id := newId, user := uid, content := body.content, image := body.image,
     likes := [], comments := [], createdAt := time })

/-- Post.findById on the posts collection. -/
def findPostById (db : List PostRecord) (i : Nat) : Option PostRecord :=
  db.find? (fun p => p.id == i)

/-- controllers/postController.js getPost: respond 200 with the document
when it exists, else 404 Post not found. -/
def getPost (db : List PostRecord) (pid : Nat) : Nat × Option PostRecord :=
  match findPostById db pid with
  | some p => (200, some p)
  | none => (404, none)

/-- controllers/postController.js deletePost: Post.findById, then remove
only when post.user equals req.user._id; the else branch answers 404 Post
not found both when the post is absent and when the caller is not the
owner. -/
def deletePost (db : List PostRecord) (uid pid : Nat) :
    (Nat × String) × List PostRecord :=
  match findPostById db pid with
  | some p =>
    if p.user == uid then
      ((200, "Post removed"), db.filter (fun q => q.id != pid))
    else
      ((404, "Post not found"), db)
  | none => ((404, "Post not found"), db)

/-- controllers/messageController.js sendMessage: builds the message with
sender := req.user._id and the destructured recipient and content - the
recipient id is taken from the body with no existence check - saves it and
answers 201. -/
def sendMessage (uid : Nat) (body : MessageBody) (newId time : Nat) : Nat × MessageRecord :=
  (201,
   { id := newId, sender := uid, recipient := body.recipient,
     content := body.content, read := false, createdAt := time })

/-- Message.findById on the messages collection. -/
def findMessageById (db : List MessageRecord) (i : Nat) : Option MessageRecord :=
  db.find? (fun m => m.id == i)

/-- Descending insertion by a Nat key, placing the new element before the
first strictly smaller key. -/
def insertDesc (key : α → Nat) (a : α) : List α → List α
  | [] => [a]
  | x :: xs => if key x ≥ key a then x :: insertDesc key a xs else a :: x :: xs

/-- sort createdAt -1 of Mongo: order by descending key. -/
def sortDesc (key : α → Nat) : List α → List α
  | [] => []
  | x :: xs => insertDesc key x (sortDesc key xs)

/-- controllers/messageController.js getMessages: Message.find on
recipient = req.user._id, sorted by createdAt descending (newest first). -/
def getMessages (db : List MessageRecord) (uid : Nat) : List MessageRecord :=
  sortDesc (fun m => m.createdAt) (db.filter (fun m => m.recipient == uid))

/-- controllers/postController.js getPosts: Post.find with no filter,
sorted by createdAt descending. -/
def getPosts (db : List PostRecord) : List PostRecord :=
  sortDesc (fun p => p.createdAt) db

/-- controllers/messageController.js getMessage: Message.findById and
respond 200 with the document when it exists, else 404 Message not found.
The resolved caller id (req.user._id) is never consulted: there is no
sender or recipient check in the handler. -/
def getMessage (db : List MessageRecord) (uid mid : Nat) : Nat × Option MessageRecord :=
  match findMessageById db mid with
  | some m => (200, some m)
  | none => (404, none)

/-- The whole document store behind the app. -/
structure AppDb where
  users : List UserRecord
  posts : List PostRecord
  messages : List MessageRecord
deriving DecidableEq, Repr

/-- An inbound HTTP request to a protected route: the Authorization header
and the parsed JSON bodies the handlers may destructure. -/
structure Request where
  header : AuthHeader
  postBody : PostBody
  msgBody : MessageBody
deriving DecidableEq, Repr

/-- The routes mounted by app.js under /api/posts (routes/postRoutes.js)
and /api/messages (routes/messageRoutes.js). Both routers call
router.use(authMiddleware) before registering any route. -/
inductive Route where
  | postsCreate
  | postsList
  | postsGet (pid : Nat)
  | postsDelete (pid : Nat)
  | messagesSend
  | messagesList
  | messagesGet (mid : Nat)
deriving DecidableEq, Repr

/-- Result of dispatching one request through a router: the response
status if one was sent (none models a handler crash that never answers),
whether a route handler was entered at all, and the store afterwards. -/
structure DispatchResult where
  status : Option Nat
  handlerExecuted : Bool
  db : AppDb
deriving DecidableEq, Repr

/-- Express dispatch for the two protected routers: authMiddleware runs
first (router.use precedes every route registration); a reject sends 401
and no handler runs; on proceed the matched handler runs with
uid = req.user._id. When req.user is null, or has no numeric _id, the
handler is entered and crashes reading req.user._id before sending a
response. -/
def dispatch (db : AppDb) (req : Request) (r : Route) (newId time : Nat) : DispatchResult :=
  match authMiddleware db.users req.header with
  | AuthOutcome.reject s _ => { status := some s, handlerExecuted := false, db := db }
  | AuthOutcome.proceed none => { status := none, handlerExecuted := true, db := db }
  | AuthOutcome.proceed (some doc) =>
    match getField doc "_id" with
    | some (Value.nat uid) =>
      match r with
      | Route.postsCreate =>
        let res := createPost uid req.postBody newId time
        { status := some res.1, handlerExecuted := true,
          db := { db with posts := db.posts ++ [res.2] } }
      | Route.postsList =>
        { status := some 200, handlerExecuted := true, db := db }
      | Route.postsGet pid =>
        { status := some (getPost db.posts pid).1, handlerExecuted := true, db := db }
      | Route.postsDelete pid =>
        let res := deletePost db.posts uid pid
        { status := some res.1.1, handlerExecuted := true,
          db := { db with posts := res.2 } }
      | Route.messagesSend =>
        let res := sendMessage uid req.msgBody newId time
        { status := some res.1, handlerExecuted := true,
          db := { db with messages := db.messages ++ [res.2] } }
      | Route.messagesList =>
        { status := some 200, handlerExecuted := true, db := db }
      | Route.messagesGet mid =>
        { status := some (getMessage db.messages uid mid).1, handlerExecuted := true, db := db }
    | _ => { status := none, handlerExecuted := true, db := db }

/-! Helper lemmas about descending insertion sort. -/

theorem insertDesc_perm (key : α → Nat) (a : α) :
    ∀ l : List α, List.Perm (insertDesc key a l) (a :: l)
  | [] => List.Perm.refl _
  | x :: xs => by
    unfold insertDesc
    by_cases h : key x ≥ key a
    · simp only [if_pos h]
      exact ((insertDesc_perm key a xs).cons x).trans (List.Perm.swap a x xs)
    · simp only [if_neg h]
      exact List.Perm.refl _

theorem sortDesc_perm (key : α → Nat) : ∀ l : List α, List.Perm (sortDesc key l) l
  | [] => List.Perm.refl _
  | x :: xs => (insertDesc_perm key x (sortDesc key xs)).trans ((sortDesc_perm key xs).cons x)

theorem pairwise_insertDesc (key : α → Nat) (a : α) :
    ∀ l : List α, List.Pairwise (fun x y => key y ≤ key x) l →
      List.Pairwise (fun x y => key y ≤ key x) (insertDesc key a l)
  | [], _ => by simp [insertDesc]
  | x :: xs, h => by
    unfold insertDesc
    rcases List.pairwise_cons.mp h with ⟨hx, hxs⟩
    by_cases hk : key x ≥ key a
    · simp only [if_pos hk]
      refine List.pairwise_cons.mpr ⟨?_, pairwise_insertDesc key a xs hxs⟩
      intro b hb
      rcases List.mem_cons.mp ((insertDesc_perm key a xs).mem_iff.mp hb) with hba | hbxs
      · exact hba ▸ hk
      · exact hx b hbxs
    · simp only [if_neg hk]
      refine List.pairwise_cons.mpr ⟨?_, h⟩
      intro b hb
      rcases List.mem_cons.mp hb with hbx | hbxs
      · exact hbx ▸ le_of_not_le hk
      · exact le_trans (hx b hbxs) (le_of_not_le hk)

theorem pairwise_sortDesc (key : α → Nat) :
    ∀ l : List α, List.Pairwise (fun x y => key y ≤ key x) (sortDesc key l)
  | [] => List.Pairwise.nil
  | x :: xs => pairwise_insertDesc key x (sortDesc key xs) (pairwise_sortDesc key xs)

/-! Claim theorems. -/

/-- A stored message from user 10 to user 20. -/
def sampleMessage : MessageRecord :=
  { id := 1, sender := 10, recipient := 20, content := "hi", read := false, createdAt := 5 }

/-- Claim C1, counterexample: identity 30 is neither the sender nor the
recipient of the stored message with id 1, yet getMessage answers 200 with
the full message instead of the claimed 404. -/
theorem getMessage_third_party_not_404 :
    (30 : Nat) ≠ sampleMessage.sender ∧ (30 : Nat) ≠ sampleMessage.recipient ∧
    getMessage [sampleMessage] 30 1 = (200, some sampleMessage) ∧
    (getMessage [sampleMessage] 30 1).1 ≠ 404 := by
  decide

/-- Claim C1 (amended): getMessage performs no sender or recipient check:
whenever a message with the requested id exists it answers 200 with that
message to every resolved identity, third parties included, and it answers
404 exactly when no message has that id. -/
theorem getMessage_no_ownership_check (db : List MessageRecord) (uid mid : Nat) :
    (∀ m, findMessageById db mid = some m → getMessage db uid mid = (200, some m)) ∧
    (findMessageById db mid = none → getMessage db uid mid = (404, none)) := by
  constructor
  · intro m hm
    simp [getMessage, hm]
  · intro hm
    simp [getMessage, hm]

/-- Witness for the amended C1 at a concrete store. -/
theorem getMessage_no_ownership_check_witness :
    getMessage [sampleMessage] 30 1 = (200, some sampleMessage) ∧
    getMessage [sampleMessage] 30 2 = (404, none) :=
  ⟨(getMessage_no_ownership_check [sampleMessage] 30 1).1 sampleMessage (by decide),
   (getMessage_no_ownership_check [sampleMessage] 30 2).2 (by decide)⟩

/-- A token with a valid unexpired signature whose subject id is 5. -/
def ghostToken : Token :=
  { subjectId := 5, sigValid := true, expired := false }

/-- Claim C2, counterexample: ghostToken verifies and id 5 matches no user
in the empty users collection, yet authMiddleware calls next() with a null
req.user instead of answering 401, and dispatch enters the route
handler. -/
theorem authMiddleware_ghost_user_cex :
    jwtVerify ghostToken = some 5 ∧
    findById [] 5 = none ∧
    authMiddleware [] (AuthHeader.bearer ghostToken) = AuthOutcome.proceed none ∧
    authMiddleware [] (AuthHeader.bearer ghostToken) ≠
      AuthOutcome.reject 401 "Not authorized, token failed" ∧
    (dispatch ⟨[], [], []⟩
        ⟨AuthHeader.bearer ghostToken, ⟨"c", none, none⟩, ⟨7, "m", none⟩⟩
        Route.messagesList 0 0).handlerExecuted = true := by
  decide

/-- Claim C2 (amended): when the bearer token signature verifies and the
token is unexpired but its subject id matches no user, authMiddleware
attaches a null req.user and calls next(), so the request does reach the
matched downstream handler; the gate sends no 401 response. -/
theorem authMiddleware_ghost_user_proceeds (db : AppDb) (req : Request) (r : Route)
    (t : Token) (newId time : Nat) (hh : req.header = AuthHeader.bearer t)
    (hs : t.sigValid = true) (he : t.expired = false)
    (hu : findById db.users t.subjectId = none) :
    authMiddleware db.users req.header = AuthOutcome.proceed none ∧
    (dispatch db req r newId time).handlerExecuted = true := by
  have hv : jwtVerify t = some t.subjectId := by
    simp [jwtVerify, hs, he]
  have hauth : authMiddleware db.users req.header = AuthOutcome.proceed none := by
    rw [hh]
    simp [authMiddleware, hv, hu]
  refine ⟨hauth, ?_⟩
  simp [dispatch, hauth]

/-- Witness for the amended C2 at a concrete store and request. -/
theorem authMiddleware_ghost_user_proceeds_witness :
    authMiddleware ([] : List UserRecord) (AuthHeader.bearer ghostToken) =
      AuthOutcome.proceed none ∧
    (dispatch ⟨[], [], []⟩
        ⟨AuthHeader.bearer ghostToken, ⟨"c", none, none⟩, ⟨7, "m", none⟩⟩
        Route.postsList 0 0).handlerExecuted = true :=
  authMiddleware_ghost_user_proceeds ⟨[], [], []⟩
    ⟨AuthHeader.bearer ghostToken, ⟨"c", none, none⟩, ⟨7, "m", none⟩⟩
    Route.postsList ghostToken 0 0 rfl rfl rfl (by decide)

/-- An already-registered user named bob. -/
def bobUser : UserRecord :=
  { id := 0, username := "bob", email := "bob@x.com", password := bcryptHash "pw0",
    bio := none, profilePicture := none, followers := [], following := [],
    createdAt := 0 }

/-- Claim C3, counterexample: registering the taken username bob under a
fresh email is not answered with the 400 duplicate response, and one
bcrypt hash is performed before the store rejects the insert. -/
theorem registerUser_dup_username_cex :
    bobUser.username = "bob" ∧ "new@x.com" ≠ bobUser.email ∧
    (registerUser [bobUser] 1 "bob" "new@x.com" "pw1" 9).result = RegisterResult.storeError ∧
    (registerUser [bobUser] 1 "bob" "new@x.com" "pw1" 9).result ≠ RegisterResult.duplicate ∧
    (registerUser [bobUser] 1 "bob" "new@x.com" "pw1" 9).hashOps = 1 := by
  decide

/-- Claim C3 (amended): only a duplicate email is caught by the controller
check, which answers the 400 duplicate response before any hashing and
creates no record; a duplicate username under a fresh email passes that
check, one bcrypt hash is performed, and the store unique index rejects
the insert with an uncaught error rather than the 400 duplicate response -
in both cases the collection is unchanged. -/
theorem registerUser_duplicate_paths (db : List UserRecord) (newId : Nat)
    (username email password : String) (time : Nat) :
    ((∃ u ∈ db, u.email = email) →
      registerUser db newId username email password time =
        { result := RegisterResult.duplicate, db := db, hashOps := 0 }) ∧
    ((∀ u ∈ db, u.email ≠ email) → (∃ u ∈ db, u.username = username) →
      registerUser db newId username email password time =
        { result := RegisterResult.storeError, db := db, hashOps := 1 }) := by
  constructor
  · intro hex
    have h1 : findByEmail db email ≠ none := by
      intro hn
      rw [findByEmail, List.find?_eq_none] at hn
      rcases hex with ⟨u, hu, he⟩
      exact hn u hu (by simp [he])
    cases hf : findByEmail db email with
    | none => exact absurd hf h1
    | some u => simp [registerUser, hf]
  · intro hall hex
    have hnone : findByEmail db email = none := by
      rw [findByEmail, List.find?_eq_none]
      intro u hu hbe
      exact hall u hu (by simpa using hbe)
    have hany : db.any (fun u => u.username == username || u.email == email) = true := by
      rw [List.any_eq_true]
      rcases hex with ⟨u, hu, hn⟩
      exact ⟨u, hu, by simp [hn]⟩
    simp [registerUser, hnone, hany]

/-- Witness for the amended C3: a duplicate email is answered 400 with no
hashing; a duplicate username under a fresh email ends in a store error
after one hash. -/
theorem registerUser_duplicate_paths_witness :
    registerUser [bobUser] 1 "x" "bob@x.com" "pw" 9 =
      { result := RegisterResult.duplicate, db := [bobUser], hashOps := 0 } ∧
    registerUser [bobUser] 1 "bob" "new@x.com" "pw" 9 =
      { result := RegisterResult.storeError, db := [bobUser], hashOps := 1 } :=
  ⟨(registerUser_duplicate_paths [bobUser] 1 "x" "bob@x.com" "pw" 9).1
      ⟨bobUser, by decide, by decide⟩,
   (registerUser_duplicate_paths [bobUser] 1 "bob" "new@x.com" "pw" 9).2
      (by decide) ⟨bobUser, by decide, rfl⟩⟩

/-- A stored post owned by user 10. -/
def samplePost : PostRecord :=
  { id := 3, user := 10, content := "hello", image := none, likes := [],
    comments := [], createdAt := 4 }

/-- Claim C4: on an existing post, deletePost answers 200 Post removed to
the owner and a subsequent getPost on that id answers 404; to any other
identity it answers 404 Post not found - not 403 - and leaves the posts
collection unchanged. -/
theorem deletePost_ownership (db : List PostRecord) (uid pid : Nat) (p : PostRecord)
    (hp : findPostById db pid = some p) :
    (p.user = uid →
      (deletePost db uid pid).1 = (200, "Post removed") ∧
      getPost (deletePost db uid pid).2 pid = (404, none)) ∧
    (p.user ≠ uid →
      (deletePost db uid pid).1 = (404, "Post not found") ∧
      (deletePost db uid pid).2 = db) := by
  constructor
  · intro ho
    have hb : (p.user == uid) = true := by simp [ho]
    have hnone : findPostById (db.filter (fun q => q.id != pid)) pid = none := by
      rw [findPostById, List.find?_eq_none]
      intro q hq
      have h2 := (List.mem_filter.mp hq).2
      simp only [bne_iff_ne, ne_eq] at h2
      simp [h2]
    constructor
    · simp [deletePost, hp, hb]
    · have hd : (deletePost db uid pid).2 = db.filter (fun q => q.id != pid) := by
        simp [deletePost, hp, hb]
      rw [hd, getPost, hnone]
  · intro ho
    have hb : (p.user == uid) = false := by
      simp only [beq_eq_false_iff_ne, ne_eq]
      exact ho
    constructor
    · simp [deletePost, hp, hb]
    · simp [deletePost, hp, hb]

/-- Witness for C4: the owner (id 10) deletes post 3 and a get then finds
nothing; identity 11 gets 404 and the collection is unchanged. -/
theorem deletePost_ownership_witness :
    ((deletePost [samplePost] 10 3).1 = (200, "Post removed") ∧
      getPost (deletePost [samplePost] 10 3).2 3 = (404, none)) ∧
    ((deletePost [samplePost] 11 3).1 = (404, "Post not found") ∧
      (deletePost [samplePost] 11 3).2 = [samplePost]) :=
  ⟨(deletePost_ownership [samplePost] 10 3 samplePost (by decide)).1 rfl,
   (deletePost_ownership [samplePost] 11 3 samplePost (by decide)).2 (by decide)⟩

/-- Claim C5: createPost and sendMessage stamp the owning field from the
resolved identity req.user._id; the bodies, including any client-supplied
owner or sender value, never influence the stored owner, so two requests
from the same identity with different client-supplied owner fields store
the same owner. -/
theorem create_stamps_owner_from_identity (uid newId time : Nat)
    (b1 b2 : PostBody) (m1 m2 : MessageBody) :
    (createPost uid b1 newId time).2.user = uid ∧
    (sendMessage uid m1 newId time).2.sender = uid ∧
    (createPost uid b1 newId time).2.user = (createPost uid b2 newId time).2.user ∧
    (sendMessage uid m1 newId time).2.sender = (sendMessage uid m2 newId time).2.sender :=
  ⟨rfl, rfl, rfl, rfl⟩

/-- Claim C6: whenever the auth gate attaches a user document, that
document is the select(-password) projection of the stored user found by
the token subject id: it has no password field, and every other field of
the stored document is present in it unchanged. -/
theorem authMiddleware_strips_password (db : List UserRecord) (t : Token)
    (doc : List (String × Value))
    (h : authMiddleware db (AuthHeader.bearer t) = AuthOutcome.proceed (some doc)) :
    (∀ kv ∈ doc, kv.1 ≠ "password") ∧
    ∃ u, findById db t.subjectId = some u ∧
      doc = selectMinusPassword (userDoc u) ∧
      ∀ kv ∈ userDoc u, kv.1 ≠ "password" → kv ∈ doc := by
  cases hv : jwtVerify t with
  | none =>
    rw [authMiddleware, hv] at h
    cases h
  | some i =>
    have hi : i = t.subjectId := by
      by_cases hs : t.sigValid && !t.expired
      · rw [jwtVerify, if_pos hs] at hv
        exact (Option.some.inj hv).symm
      · rw [jwtVerify, if_neg hs] at hv
        cases hv
    subst hi
    rw [authMiddleware, hv] at h
    dsimp only at h
    cases hu : findById db t.subjectId with
    | none =>
      rw [hu] at h
      simp at h
    | some u =>
      rw [hu] at h
      simp only [Option.map_some'] at h
      have hdoc : doc = selectMinusPassword (userDoc u) := by
        have := (AuthOutcome.proceed.inj h)
        exact (Option.some.inj this).symm
      subst hdoc
      refine ⟨?_, u, rfl, rfl, ?_⟩
      · intro kv hkv
        have h2 := (List.mem_filter.mp hkv).2
        simpa [bne_iff_ne] using h2
      · intro kv hkv hne
        exact List.mem_filter.mpr ⟨hkv, by simpa [bne_iff_ne] using hne⟩

/-- Witness for C6 at a concrete user and freshly issued token. -/
theorem authMiddleware_strips_password_witness :
    (∀ kv ∈ selectMinusPassword (userDoc bobUser), kv.1 ≠ "password") ∧
    ∃ u, findById [bobUser] (Token.mk 0 true false).subjectId = some u ∧
      selectMinusPassword (userDoc bobUser) = selectMinusPassword (userDoc u) ∧
      ∀ kv ∈ userDoc u, kv.1 ≠ "password" →
        kv ∈ selectMinusPassword (userDoc bobUser) :=
  authMiddleware_strips_password [bobUser] (Token.mk 0 true false)
    (selectMinusPassword (userDoc bobUser)) (by decide)

/-- Claim C7: a wrong password on an existing email and an unknown email
both make loginUser answer the same 401 response with the same body, so
the two failure causes are indistinguishable to the client. -/
theorem loginUser_uniform_failure (db : List UserRecord) (e1 p1 e2 p2 : String)
    (u : UserRecord) (h1 : findByEmail db e1 = some u)
    (h2 : matchPassword u p1 = false) (h3 : findByEmail db e2 = none) :
    loginUser db e1 p1 = LoginResult.err 401 "Invalid email or password" ∧
    loginUser db e2 p2 = loginUser db e1 p1 := by
  have ha : loginUser db e1 p1 = LoginResult.err 401 "Invalid email or password" := by
    simp [loginUser, h1, h2]
  have hb : loginUser db e2 p2 = LoginResult.err 401 "Invalid email or password" := by
    simp [loginUser, h3]
  exact ⟨ha, hb.trans ha.symm⟩

/-- Witness for C7: the wrong password for bob and a login for an unknown
email draw the identical response. -/
theorem loginUser_uniform_failure_witness :
    loginUser [bobUser] "bob@x.com" "wrong" =
      LoginResult.err 401 "Invalid email or password" ∧
    loginUser [bobUser] "no@x.com" "pw0" = loginUser [bobUser] "bob@x.com" "wrong" :=
  loginUser_uniform_failure [bobUser] "bob@x.com" "wrong" "no@x.com" "pw0" bobUser
    (by decide) (by decide) (by decide)

/-- Claim C8: getMessages answers exactly the stored messages whose
recipient is the caller - a permutation of that filter of the store, hence
the same members - ordered newest first by createdAt. -/
theorem getMessages_recipient_sorted (db : List MessageRecord) (uid : Nat) :
    List.Perm (getMessages db uid) (db.filter (fun m => m.recipient == uid)) ∧
    (∀ m : MessageRecord, m ∈ getMessages db uid ↔ (m ∈ db ∧ m.recipient = uid)) ∧
    List.Pairwise (fun a b => b.createdAt ≤ a.createdAt) (getMessages db uid) := by
  refine ⟨sortDesc_perm _ _, ?_, pairwise_sortDesc _ _⟩
  intro m
  rw [getMessages, (sortDesc_perm (fun m => m.createdAt)
    (db.filter (fun m => m.recipient == uid))).mem_iff]
  simp [List.mem_filter]

/-- Claim C9: every route of the posts and messages routers sits behind
router.use(authMiddleware): any request whose Authorization header holds
no bearer token that verifies is answered 401 by the gate and no route
handler executes, the read routes included. -/
theorem protected_routes_require_valid_token (db : AppDb) (req : Request) (r : Route)
    (newId time : Nat)
    (h : ∀ t, req.header = AuthHeader.bearer t → jwtVerify t = none) :
    (dispatch db req r newId time).status = some 401 ∧
    (dispatch db req r newId time).handlerExecuted = false := by
  cases hh : req.header with
  | missing =>
    constructor <;> simp [dispatch, authMiddleware, hh]
  | malformed s =>
    constructor <;> simp [dispatch, authMiddleware, hh]
  | bearer t =>
    have hv := h t hh
    constructor <;> simp [dispatch, authMiddleware, hh, hv]

/-- Witness for C9: a request with no Authorization header against the
delete route is answered 401 and the handler never runs. -/
theorem protected_routes_require_valid_token_witness :
    (dispatch ⟨[], [samplePost], []⟩
        ⟨AuthHeader.missing, ⟨"c", none, none⟩, ⟨7, "m", none⟩⟩
        (Route.postsDelete 3) 0 0).status = some 401 ∧
    (dispatch ⟨[], [samplePost], []⟩
        ⟨AuthHeader.missing, ⟨"c", none, none⟩, ⟨7, "m", none⟩⟩
        (Route.postsDelete 3) 0 0).handlerExecuted = false :=
  protected_routes_require_valid_token ⟨[], [samplePost], []⟩
    ⟨AuthHeader.missing, ⟨"c", none, none⟩, ⟨7, "m", none⟩⟩
    (Route.postsDelete 3) 0 0 (fun t ht => nomatch ht)

/-- Claim C10: sendMessage takes the recipient id straight from the
request body: for any users collection in which no user has that id, it
still answers 201 with the persisted message carrying that recipient, and
never 404. -/
theorem sendMessage_no_recipient_check (users : List UserRecord)
    (uid newId time : Nat) (b : MessageBody)
    (h : ∀ u ∈ users, u.id ≠ b.recipient) :
    (sendMessage uid b newId time).1 = 201 ∧
    (sendMessage uid b newId time).2.recipient = b.recipient ∧
    (sendMessage uid b newId time).1 ≠ 404 :=
  ⟨rfl, rfl, by simp [sendMessage]⟩

/-- Witness for C10: recipient id 7 exists nowhere in the users
collection, yet the message is stored and answered 201. -/
theorem sendMessage_no_recipient_check_witness :
    (sendMessage 0 ⟨7, "m", none⟩ 1 2).1 = 201 ∧
    (sendMessage 0 ⟨7, "m", none⟩ 1 2).2.recipient = 7 ∧
    (sendMessage 0 ⟨7, "m", none⟩ 1 2).1 ≠ 404 :=
  sendMessage_no_recipient_check [bobUser] 0 1 2 ⟨7, "m", none⟩ (by decide)
